import Mathlib

/-!
Shallow embedding of the AI-voice-detection pipeline in src/audio_processing.py
(class AudioProcessor).  Waveforms, spectrograms and feature vectors are lists
of real numbers; numpy reductions are translated exactly (np.std is the
population standard deviation, np.percentile uses linear interpolation);
exceptions become Except values.  The librosa signal-processing primitives are
external library calls; they are modelled as an environment structure whose
fields carry the documented shape and sign contracts of the library.
-/

noncomputable section

namespace Voice

/-- np.mean of a 1-d array: sum divided by length (0/0 = 0 on the empty list,
which the pipeline never hits for decoded audio). -/
def npMean (l : List ℝ) : ℝ := l.sum / (l.length : ℝ)

/-- np.var with the default ddof=0: mean of squared deviations from the mean. -/
def npVar (l : List ℝ) : ℝ := npMean (l.map (fun x => (x - npMean l) ^ 2))

/-- np.std with the default ddof=0: square root of the population variance. -/
def npStd (l : List ℝ) : ℝ := Real.sqrt (npVar l)

/-- np.min of a 1-d array (the pipeline only applies it to nonempty frames). -/
def npMin : List ℝ → ℝ
  | [] => 0
  | x :: xs => xs.foldl min x

/-- np.max of a 1-d array (the pipeline only applies it to nonempty slices). -/
def npMax : List ℝ → ℝ
  | [] => 0
  | x :: xs => xs.foldl max x

/-- np.clip(v, lo, hi). -/
def npClip (lo hi v : ℝ) : ℝ := min hi (max lo v)

/-- np.diff of a 1-d array: successive differences. -/
def npDiff (l : List ℝ) : List ℝ := List.zipWith (fun a b => a - b) (l.drop 1) l

/-- A 2-d array (matrix) as a list of rows. -/
abbrev Mat := List (List ℝ)

/-- Number of columns of a matrix stored as a list of rows. -/
def rowLen (M : Mat) : ℕ := (M.headD []).length

/-- Column j of a matrix stored as a list of rows. -/
def colAt (M : Mat) (j : ℕ) : List ℝ := M.map (fun r => r.getD j 0)

/-- np.mean(M, axis=1): per-row mean. -/
def meanAxis1 (M : Mat) : List ℝ := M.map npMean

/-- np.std(M, axis=1): per-row standard deviation. -/
def stdAxis1 (M : Mat) : List ℝ := M.map npStd

/-- np.min(M, axis=1): per-row minimum. -/
def minAxis1 (M : Mat) : List ℝ := M.map npMin

/-- np.max(M, axis=1): per-row maximum. -/
def maxAxis1 (M : Mat) : List ℝ := M.map npMax

/-- np.std(M, axis=0): per-column standard deviation. -/
def stdAxis0 (M : Mat) : List ℝ := (List.range (rowLen M)).map (fun j => npStd (colAt M j))

/-- Flattening of a 2-d array, as numpy reductions with axis=None do. -/
def flatAll (M : Mat) : List ℝ := M.flatten

/-- np.sum over a whole 2-d array. -/
def sumAll (M : Mat) : ℝ := (M.map List.sum).sum

/-- Insertion into a sorted list, for the ascending sort behind np.percentile. -/
def sortedInsert (x : ℝ) : List ℝ → List ℝ
  | [] => [x]
  | y :: ys => if x ≤ y then x :: y :: ys else y :: sortedInsert x ys

/-- Ascending sort of a list of reals (insertion sort). -/
def sortAsc (l : List ℝ) : List ℝ := l.foldr sortedInsert []

/-- np.percentile(l, q) with the default linear interpolation: the value at
fractional position (n-1)*q/100 of the ascending sort of l. -/
def npPercentile (q : ℝ) (l : List ℝ) : ℝ :=
  let s := sortAsc l
  let pos : ℝ := ((s.length : ℝ) - 1) * q / 100
  let i : ℕ := ⌊pos⌋₊
  let lo := s.getD i 0
  let hi := s.getD (i + 1) lo
  lo + (pos - (i : ℝ)) * (hi - lo)

/-- One lag of np.correlate(y, y, mode='full') restricted to its second half:
entry k is the sum of y[i] * y[i+k]. -/
def corrAt (y : List ℝ) (k : ℕ) : ℝ := (List.zipWith (fun a b => a * b) y (y.drop k)).sum

/-- The nonnegative-lag half of the full autocorrelation, as produced by
autocorr[len(autocorr)//2:] in the source. -/
def autocorrHalf (y : List ℝ) : List ℝ := (List.range y.length).map (corrAt y)

/-- librosa.frames_to_time(frames, sr): frame index times hop length 512 over
the sampling rate. -/
def framesToTime (frames : List ℕ) (sr : ℕ) : List ℝ :=
  frames.map (fun (f : ℕ) => (f : ℝ) * 512 / (sr : ℝ))

/-- The external signal-processing library behind the pipeline (librosa plus
the percent formatting used by the f-strings).  Each function field models one
library call at the shape the source uses it; the Prop fields record the
library's documented output contracts that the source relies on: a cepstral
matrix has exactly n_mfcc rows, a chromagram has 12 rows, magnitudes, RMS
envelopes and centroid frequencies are nonnegative, and spectral flatness lies
in the unit interval. -/
structure AudioEnv where
  load : List ℕ → Except String (List ℝ)
  mfcc : List ℝ → ℕ → ℕ → Mat
  stftAbs : List ℝ → Mat
  spectralCentroid : List ℝ → ℕ → List ℝ
  spectralRolloff : List ℝ → ℕ → List ℝ
  zeroCrossingRate : List ℝ → List ℝ
  chromaStft : List ℝ → ℕ → Mat
  rmsOfS : Mat → List ℝ
  onsetStrength : List ℝ → ℕ → List ℝ
  spectralFlatness : Mat → List ℝ
  hpssHarmAbs : List ℝ → Mat
  pct : ℝ → String
  mfcc_rows : ∀ y sr n, (mfcc y sr n).length = n
  chroma_rows : ∀ y sr, (chromaStft y sr).length = 12
  stftAbs_nonneg : ∀ y x, x ∈ flatAll (stftAbs y) → 0 ≤ x
  centroid_nonneg : ∀ y sr x, x ∈ spectralCentroid y sr → 0 ≤ x
  rms_nonneg : ∀ S x, x ∈ rmsOfS S → 0 ≤ x
  flatness_unit : ∀ S x, x ∈ spectralFlatness S → 0 ≤ x ∧ x ≤ 1
  hpss_nonneg : ∀ y x, x ∈ flatAll (hpssHarmAbs y) → 0 ≤ x

/-- self.sr of AudioProcessor: the processing sample rate. -/
def procSr : ℕ := 16000

/-- self.n_mfcc of AudioProcessor: the number of cepstral coefficients. -/
def procNMfcc : ℕ := 13

/-- AudioProcessor._load_audio: decode the bytes, then reject waveforms shorter
than one second; any decoder failure message is rewrapped by the surrounding
except-clause, so the too-short ValueError raised inside the try block also
comes out prefixed with "Failed to load audio: ". -/
def loadWaveform (env : AudioEnv) (ab : List ℕ) (fileFormat : String) :
    Except String (List ℝ) :=
  match env.load ab with
  | Except.error m => Except.error ("Failed to load audio: " ++ m)
  | Except.ok y =>
      if y.length < procSr then
        Except.error ("Failed to load audio: " ++ "Audio too short (minimum 1 second required)")
      else
        Except.ok y

/-- A numpy value as it occurs in the features list of _extract_features:
either a 1-d array (the per-coefficient statistics of lines 129-134 and
161-164) or a 0-d scalar (np.mean and friends applied to a whole time series,
lines 138-157). -/
inductive NpVal where
  | arr (v : List ℝ)
  | scalar (x : ℝ)

/-- np.concatenate: concatenates 1-d arrays; an empty input raises
"need at least one array to concatenate" and a 0-d input raises
"zero-dimensional arrays cannot be concatenated". -/
def npConcatenate : List NpVal → Except String (List ℝ)
  | [] => Except.error "need at least one array to concatenate"
  | [NpVal.arr v] => Except.ok v
  | NpVal.arr v :: x :: rest =>
      match npConcatenate (x :: rest) with
      | Except.error e => Except.error e
      | Except.ok w => Except.ok (v ++ w)
  | NpVal.scalar _ :: _ => Except.error "zero-dimensional arrays cannot be concatenated"

/-- AudioProcessor._extract_features: the features list holds the four
per-coefficient cepstral statistics arrays, then the 0-d scalar statistics of
centroid (4), rolloff (2) and zero-crossing rate (2), then the two
per-chroma-bin statistics arrays, passed to np.concatenate in that order.
Because the scalar entries are 0-d, the concatenation raises on every call. -/
def extractFeatures (env : AudioEnv) (y : List ℝ) (sr : ℕ) : Except String (List ℝ) :=
  let mf := env.mfcc y sr procNMfcc
  let cent := env.spectralCentroid y sr
  let roll := env.spectralRolloff y sr
  let zc := env.zeroCrossingRate y
  let ch := env.chromaStft y sr
  npConcatenate
    [NpVal.arr (meanAxis1 mf), NpVal.arr (stdAxis1 mf),
     NpVal.arr (minAxis1 mf), NpVal.arr (maxAxis1 mf),
     NpVal.scalar (npMean cent), NpVal.scalar (npStd cent),
     NpVal.scalar (npMin cent), NpVal.scalar (npMax cent),
     NpVal.scalar (npMean roll), NpVal.scalar (npStd roll),
     NpVal.scalar (npMean zc), NpVal.scalar (npStd zc),
     NpVal.arr (meanAxis1 ch), NpVal.arr (stdAxis1 ch)]

/-- The formant-regularity statistic of _detect_artifacts, line 183:
np.std(np.std(mfcc, axis=0)), the across-time standard deviation of the
per-frame across-coefficient standard deviations. -/
def formantRegularity (env : AudioEnv) (y : List ℝ) (sr : ℕ) : ℝ :=
  npStd (stdAxis0 (env.mfcc y sr 13))

/-- The first artifact indicator: min(1.0, formant_regularity / 5.0). -/
def formantIndicator (env : AudioEnv) (y : List ℝ) (sr : ℕ) : ℝ :=
  min 1 (formantRegularity env y sr / 5)

/-- The second artifact indicator: 1 - min(1.0, spec_smoothness / 2000) where
spec_smoothness = np.mean(np.std(spec, axis=1)). -/
def smoothnessIndicator (env : AudioEnv) (y : List ℝ) : ℝ :=
  1 - min 1 (npMean (stdAxis1 (env.stftAbs y)) / 2000)

/-- The third artifact indicator: the 90th/10th percentile quotient of the
magnitude spectrogram, epsilon-guarded, mapped to min(1.0, (ratio - 5) / 20). -/
def noiseFloorIndicator (env : AudioEnv) (y : List ℝ) : ℝ :=
  let spec := flatAll (env.stftAbs y)
  let snr := npPercentile 90 spec / (npPercentile 10 spec + 1e-8)
  min 1 ((snr - 5) / 20)

/-- The fourth artifact indicator: min(1.0, periodicity) where periodicity is
the maximum of autocorr[1:int(0.05*sr)] divided by the maximum of the whole
nonnegative-lag autocorrelation. -/
def periodicityIndicator (y : List ℝ) (sr : ℕ) : ℝ :=
  let ac := autocorrHalf y
  let m : ℕ := ⌊(0.05 : ℝ) * (sr : ℝ)⌋₊
  min 1 (npMax ((ac.drop 1).take (m - 1)) / npMax ac)

/-- AudioProcessor._detect_artifacts: the arithmetic mean of the four artifact
indicators. -/
def detectArtifacts (env : AudioEnv) (y : List ℝ) (sr : ℕ) : ℝ :=
  npMean [formantIndicator env y sr, smoothnessIndicator env y,
          noiseFloorIndicator env y, periodicityIndicator y sr]

/-- The RMS energy-variation indicator of _analyze_temporal_consistency:
min(1.0, (np.std(rms) / (np.mean(rms) + 1e-8)) / 0.5). -/
def energyIndicator (env : AudioEnv) (y : List ℝ) : ℝ :=
  let r := env.rmsOfS (env.stftAbs y)
  min 1 ((npStd r / (npMean r + 1e-8)) / 0.5)

/-- The call librosa.util.peak_pick(o, 3, 3, 3, 3) of line 222.  librosa's
peak_pick takes the seven parameters x, pre_max, post_max, pre_avg, post_avg,
delta and wait (keyword-only from librosa 0.10 on); the source supplies only
five positional arguments, so Python raises TypeError before any peak picking
runs, in every librosa version. -/
def peakPickCall (o : List ℝ) : Except String (List ℕ) :=
  Except.error "peak_pick() missing 2 required positional arguments: delta and wait"

/-- The onset-interval indicator of lines 224-227, on a picked frame list:
1.0 - min(1.0, interval_consistency / 2.0) over the inter-onset times.  This
is the code the TypeError of line 222 makes unreachable. -/
def onsetIndicatorOf (frames : List ℕ) (sr : ℕ) : ℝ :=
  let ivs := npDiff (framesToTime frames sr)
  1 - min 1 ((npStd ivs / (npMean ivs + 1e-8)) / 2)

/-- Line 229 of the source: np.mean(consistency_scores) if consistency_scores
else 0.5 — the mean of the collected scores, or the neutral 0.5 default when
the list is empty. -/
def combineConsistency : List ℝ → ℝ
  | [] => 0.5
  | x :: xs => npMean (x :: xs)

/-- AudioProcessor._analyze_temporal_consistency: the energy indicator is
collected first (line 218), then the peak-picking call of line 222 raises, so
the function propagates that error instead of reaching the onset case split
and the mean-or-0.5 return of line 229. -/
def analyzeTemporal (env : AudioEnv) (y : List ℝ) (sr : ℕ) : Except String ℝ :=
  let scores0 := [energyIndicator env y]
  match peakPickCall (env.onsetStrength y sr) with
  | Except.error e => Except.error e
  | Except.ok frames =>
      Except.ok (combineConsistency
        (if 1 < frames.length then scores0 ++ [onsetIndicatorOf frames sr] else scores0))

/-- AudioProcessor._analyze_spectral_characteristics: mean of centroid
stability, mean spectral flatness, and the clipped harmonic-to-total quotient. -/
def analyzeSpectral (env : AudioEnv) (y : List ℝ) (sr : ℕ) : ℝ :=
  let centroid := env.spectralCentroid y sr
  let i1 := 1 - min 1 ((npStd centroid / (npMean centroid + 1e-8)) / 0.3)
  let i2 := npMean (env.spectralFlatness (env.stftAbs y))
  let i3 := min 1 ((sumAll (env.hpssHarmAbs y) / sumAll (env.stftAbs y)) / 0.8)
  npMean [i1, i2, i3]

/-- The feature-variance score of _classify: the coefficient of variation of
the descriptor vector, epsilon-guarded, mapped to min(1.0, 1.0 - fv / 5.0). -/
def featureScore (features : List ℝ) : ℝ :=
  let fv := npStd features / (npMean (features.map (fun x => |x|)) + 1e-8)
  min 1 (1 - fv / 5)

/-- AudioProcessor._classify: the fixed-weight sum of the three scorer values
and the feature-variance score, squashed by the logistic 1/(1+exp(-(w-0.5)*8))
and clipped to the unit interval. -/
def classify (features : List ℝ) (artifact temporal spectral : ℝ) : ℝ :=
  let ws := 0.35 * artifact + 0.25 * temporal + 0.25 * spectral +
    0.15 * featureScore features
  npClip 0 1 (1 / (1 + Real.exp (-(ws - 0.5) * 8)))

/-- Python's max over a nonempty keyed list: a later element replaces the
current best only when its key is strictly greater, so the first of several
maximal elements wins. -/
def pyMaxPair (x : String × ℝ) (xs : List (String × ℝ)) : String × ℝ :=
  xs.foldl (fun cur z => if cur.2 < z.2 then z else cur) x

/-- The decision threshold of _generate_response. -/
def threshold : ℝ := 0.5

/-- AudioProcessor._generate_response, with Python's "{:.1%}" percent
formatting abstracted as the library field pct carried in fmt. -/
def generateResponse (fmt : ℝ → String) (p artifact temporal spectral : ℝ) :
    String × String :=
  if threshold ≤ p then
    let top := pyMaxPair ("spectral artifacts", artifact)
      [("pitch consistency", temporal), ("spectral patterns", spectral)]
    ("AI-generated",
      "Audio exhibits characteristics consistent with AI generation. Key indicator: " ++
        top.1 ++ " (confidence: " ++ fmt p ++
        "). Analysis based on spectral features, temporal patterns, and digital artifact detection.")
  else
    ("human",
      "Audio exhibits characteristics consistent with natural human speech. Analysis detected natural variability in spectral and temporal features. Confidence: " ++
        fmt (1 - p) ++ ". Language-agnostic detection based on signal processing techniques.")

/-- The body of the try block of detect_voice: load, extract, score, classify,
and build the response.  Errors of the decoder, of the feature concatenation
(line 167) and of the temporal scorer's peak-picking call (line 222) propagate
to the surrounding catch-all. -/
def pipelineE (env : AudioEnv) (ab : List ℕ) (fileFormat : String) :
    Except String (String × ℝ × String) :=
  match loadWaveform env ab fileFormat with
  | Except.error e => Except.error e
  | Except.ok y =>
      match extractFeatures env y procSr with
      | Except.error e => Except.error e
      | Except.ok features =>
          let artifact := detectArtifacts env y procSr
          match analyzeTemporal env y procSr with
          | Except.error e => Except.error e
          | Except.ok temporal =>
              let spectral := analyzeSpectral env y procSr
              let p := classify features artifact temporal spectral
              let r := generateResponse env.pct p artifact temporal spectral
              Except.ok (r.1, p, r.2)

/-- AudioProcessor.detect_voice: run the pipeline; on any internal error fall
back to the fixed human/0.3 tuple carrying the error text. -/
def detectVoice (env : AudioEnv) (ab : List ℕ) (fileFormat : String) :
    String × ℝ × String :=
  match pipelineE env ab fileFormat with
  | Except.ok r => r
  | Except.error e => ("human", 0.3, "Processing error (defaulting to human): " ++ e)

theorem npStd_nonneg (l : List ℝ) : 0 ≤ npStd l := Real.sqrt_nonneg _

theorem npMean_nonneg {l : List ℝ} (h : ∀ x ∈ l, 0 ≤ x) : 0 ≤ npMean l :=
  div_nonneg (List.sum_nonneg h) (Nat.cast_nonneg _)

theorem npMean_le_one {l : List ℝ} (h : ∀ x ∈ l, x ≤ 1) : npMean l ≤ 1 := by
  cases l with
  | nil => simp [npMean]
  | cons a t =>
    have hs := List.sum_le_card_nsmul (a :: t) 1 h
    have hlen : (0 : ℝ) < ((a :: t).length : ℝ) := by
      exact_mod_cast Nat.succ_pos t.length
    rw [npMean, div_le_one hlen]
    simpa using hs

theorem min_one_mem {x : ℝ} (hx : 0 ≤ x) : 0 ≤ min 1 x ∧ min 1 x ≤ 1 :=
  ⟨le_min zero_le_one hx, min_le_left _ _⟩

theorem one_sub_min_mem {x : ℝ} (hx : 0 ≤ x) : 0 ≤ 1 - min 1 x ∧ 1 - min 1 x ≤ 1 := by
  have h1 : min 1 x ≤ 1 := min_le_left _ _
  have h2 : 0 ≤ min 1 x := le_min zero_le_one hx
  constructor <;> linarith

theorem sumAll_nonneg {M : Mat} (h : ∀ x ∈ flatAll M, 0 ≤ x) : 0 ≤ sumAll M := by
  rw [sumAll, ← List.sum_flatten]
  exact List.sum_nonneg h

theorem analyzeSpectral_mem (env : AudioEnv) (y : List ℝ) (sr : ℕ) :
    0 ≤ analyzeSpectral env y sr ∧ analyzeSpectral env y sr ≤ 1 := by
  have hc : 0 ≤ npMean (env.spectralCentroid y sr) :=
    npMean_nonneg (fun x hx => env.centroid_nonneg y sr x hx)
  have h1 := one_sub_min_mem (x := (npStd (env.spectralCentroid y sr) /
      (npMean (env.spectralCentroid y sr) + 1e-8)) / 0.3)
    (div_nonneg (div_nonneg (npStd_nonneg _) (by norm_num; linarith)) (by norm_num))
  have h2l : 0 ≤ npMean (env.spectralFlatness (env.stftAbs y)) :=
    npMean_nonneg (fun x hx => (env.flatness_unit _ x hx).1)
  have h2r : npMean (env.spectralFlatness (env.stftAbs y)) ≤ 1 :=
    npMean_le_one (fun x hx => (env.flatness_unit _ x hx).2)
  have h3 := min_one_mem (x := (sumAll (env.hpssHarmAbs y) / sumAll (env.stftAbs y)) / 0.8)
    (div_nonneg (div_nonneg (sumAll_nonneg (env.hpss_nonneg y))
      (sumAll_nonneg (env.stftAbs_nonneg y))) (by norm_num))
  rw [analyzeSpectral]
  constructor
  · refine npMean_nonneg ?_
    intro x hx
    simp only [List.mem_cons, List.not_mem_nil, or_false] at hx
    rcases hx with rfl | rfl | rfl
    · exact h1.1
    · exact h2l
    · exact h3.1
  · refine npMean_le_one ?_
    intro x hx
    simp only [List.mem_cons, List.not_mem_nil, or_false] at hx
    rcases hx with rfl | rfl | rfl
    · exact h1.2
    · exact h2r
    · exact h3.2

theorem detectArtifacts_le_one (env : AudioEnv) (y : List ℝ) (sr : ℕ) :
    detectArtifacts env y sr ≤ 1 := by
  have hsm : 0 ≤ npMean (stdAxis1 (env.stftAbs y)) / 2000 := by
    refine div_nonneg (npMean_nonneg ?_) (by norm_num)
    intro x hx
    rcases List.mem_map.1 hx with ⟨r, _, rfl⟩
    exact npStd_nonneg r
  have h2 := one_sub_min_mem hsm
  rw [detectArtifacts]
  refine npMean_le_one ?_
  intro x hx
  simp only [List.mem_cons, List.not_mem_nil, or_false] at hx
  rcases hx with rfl | rfl | rfl | rfl
  · exact min_le_left _ _
  · exact h2.2
  · exact min_le_left _ _
  · exact min_le_left _ _

/-- The Fuser contract written from the words of the spec, for comparison with
the source-side classify: coefficient of variation of the descriptor vector
(std of all values over the epsilon-guarded mean of absolute values) mapped to
min(1, 1 - cv/5), weights 0.35/0.25/0.25/0.15, logistic squash
1/(1 + exp(-(ws - 0.5) * 8)), clamp to the unit interval. -/
def fuseSpec (v : List ℝ) (artifact temporal spectral : ℝ) : ℝ :=
  let cv := npStd v / (npMean (v.map (fun x => |x|)) + 1e-8)
  let fv := min 1 (1 - cv / 5)
  let ws := 0.35 * artifact + 0.25 * temporal + 0.25 * spectral + 0.15 * fv
  npClip 0 1 (1 / (1 + Real.exp (-(ws - 0.5) * 8)))

/-- The dominant-indicator selection written from the words of the spec: the
single largest of artifact/temporal/spectral, ties broken first-listed-wins in
the order artifact, temporal, spectral. -/
def dominantIndicatorSpec (artifact temporal spectral : ℝ) : String :=
  if temporal ≤ artifact ∧ spectral ≤ artifact then "spectral artifacts"
  else if spectral ≤ temporal then "pitch consistency"
  else "spectral patterns"

theorem pyMaxPair_dominant (a t s : ℝ) :
    (pyMaxPair ("spectral artifacts", a)
      [("pitch consistency", t), ("spectral patterns", s)]).1 =
      dominantIndicatorSpec a t s := by
  rw [pyMaxPair, dominantIndicatorSpec]
  simp only [List.foldl_cons, List.foldl_nil]
  by_cases h1 : a < t
  · rw [if_pos h1]
    by_cases h2 : t < s
    · rw [if_pos h2, if_neg (by rintro ⟨ht, _⟩; exact absurd h1 (not_lt.2 ht)),
        if_neg (not_le.2 h2)]
    · rw [if_neg h2, if_neg (by rintro ⟨ht, _⟩; exact absurd h1 (not_lt.2 ht)),
        if_pos (not_lt.1 h2)]
  · rw [if_neg h1]
    by_cases h2 : a < s
    · rw [if_pos h2, if_neg (by rintro ⟨_, hs⟩; exact absurd h2 (not_lt.2 hs)),
        if_neg (not_le.2 (lt_of_le_of_lt (not_lt.1 h1) h2))]
    · rw [if_neg h2, if_pos ⟨not_lt.1 h1, not_lt.1 h2⟩]

/-- C5: the fused probability computed by _classify is exactly the spec's
fusion formula: logistic squash of the 0.35/0.25/0.25/0.15-weighted sum, with
the feature-variance indicator min(1, 1 - cv/5) of the descriptor vector, then
clamped to the unit interval. -/
theorem classify_eq_fuseSpec (v : List ℝ) (artifact temporal spectral : ℝ) :
    classify v artifact temporal spectral = fuseSpec v artifact temporal spectral := rfl

/-- C6: the label is "AI-generated" exactly when the fused probability reaches
the inclusive 0.5 threshold, and on the human branch the explanation reports
one minus the probability as the confidence percentage. -/
theorem generate_response_threshold (fmt : ℝ → String) (p a t s : ℝ) :
    ((generateResponse fmt p a t s).1 = "AI-generated" ↔ threshold ≤ p) ∧
    (p < threshold →
      (generateResponse fmt p a t s).2 =
        "Audio exhibits characteristics consistent with natural human speech. Analysis detected natural variability in spectral and temporal features. Confidence: " ++
          fmt (1 - p) ++ ". Language-agnostic detection based on signal processing techniques.") := by
  constructor
  · by_cases h : threshold ≤ p
    · rw [generateResponse, if_pos h]
      exact iff_of_true rfl h
    · rw [generateResponse, if_neg h]
      exact iff_of_false (by simp) h
  · intro hp
    rw [generateResponse, if_neg (not_le.2 hp)]

/-- Witness for C6 at the concrete probability 1/4. -/
theorem generate_response_threshold_witness :
    ((generateResponse (fun _ => "pc") (1/4) 0 0 0).1 = "AI-generated" ↔
      threshold ≤ (1/4 : ℝ)) ∧
    (generateResponse (fun _ => "pc") (1/4) 0 0 0).2 =
      "Audio exhibits characteristics consistent with natural human speech. Analysis detected natural variability in spectral and temporal features. Confidence: " ++
        (fun (_ : ℝ) => "pc") (1 - 1/4) ++ ". Language-agnostic detection based on signal processing techniques." :=
  ⟨(generate_response_threshold (fun _ => "pc") (1/4) 0 0 0).1,
   (generate_response_threshold (fun _ => "pc") (1/4) 0 0 0).2
     (by rw [threshold]; norm_num)⟩

/-- C7: on the AI branch the explanation names the largest of the three scorer
values, ties resolved first-listed-wins (artifact, then temporal, then
spectral), and embeds the probability rendered as a percentage. -/
theorem generate_response_dominant (fmt : ℝ → String) (p a t s : ℝ)
    (hp : threshold ≤ p) :
    generateResponse fmt p a t s =
      ("AI-generated",
        "Audio exhibits characteristics consistent with AI generation. Key indicator: " ++
          dominantIndicatorSpec a t s ++ " (confidence: " ++ fmt p ++
          "). Analysis based on spectral features, temporal patterns, and digital artifact detection.") := by
  rw [generateResponse, if_pos hp]
  simp only [pyMaxPair_dominant]

/-- Witness for C7 at probability 1 with all scorer values 0 (the artifact
score wins the three-way tie). -/
theorem generate_response_dominant_witness :
    generateResponse (fun _ => "pc") 1 0 0 0 =
      ("AI-generated",
        "Audio exhibits characteristics consistent with AI generation. Key indicator: " ++
          dominantIndicatorSpec 0 0 0 ++ " (confidence: " ++ (fun (_ : ℝ) => "pc") 1 ++
          "). Analysis based on spectral features, temporal patterns, and digital artifact detection.") :=
  generate_response_dominant (fun _ => "pc") 1 0 0 0 (by rw [threshold]; norm_num)

theorem logistic_mono {x y : ℝ} (h : x ≤ y) :
    1 / (1 + Real.exp (-(x - 0.5) * 8)) ≤ 1 / (1 + Real.exp (-(y - 0.5) * 8)) := by
  have he : Real.exp (-(y - 0.5) * 8) ≤ Real.exp (-(x - 0.5) * 8) :=
    Real.exp_le_exp.2 (by nlinarith)
  have hp : 0 < 1 + Real.exp (-(y - 0.5) * 8) := by positivity
  exact one_div_le_one_div_of_le hp (by linarith)

theorem npClip_mono {lo hi x y : ℝ} (h : x ≤ y) : npClip lo hi x ≤ npClip lo hi y :=
  min_le_min le_rfl (max_le_max le_rfl h)

/-- C8: with the descriptor vector and the temporal and spectral scores held
fixed, the fused probability is monotone non-decreasing in the artifact
score. -/
theorem classify_monotone_artifact (v : List ℝ) (t s a1 a2 : ℝ) (h : a1 ≤ a2) :
    classify v a1 t s ≤ classify v a2 t s := by
  simp only [classify]
  exact npClip_mono (logistic_mono (by nlinarith))

/-- Witness for C8 at artifact scores 0 and 1 over the empty descriptor. -/
theorem classify_monotone_artifact_witness :
    classify [] 0 0 0 ≤ classify [] 1 0 0 :=
  classify_monotone_artifact [] 0 0 0 1 (by norm_num)

/-- C9: the temporal scorer never returns a score at all: the peak-picking
call of line 222 passes five positional arguments to librosa's
seven-parameter peak_pick and raises TypeError on every call, before the
onset case split and the mean-or-0.5 return of line 229 are ever reached. -/
theorem analyze_temporal_raises (env : AudioEnv) (y : List ℝ) (sr : ℕ) :
    analyzeTemporal env y sr = Except.error
      "peak_pick() missing 2 required positional arguments: delta and wait" := rfl

/-- C10: the result of detect_voice does not depend on the declared file
format, which the loader never consults. -/
theorem detect_voice_format_independent (env : AudioEnv) (ab : List ℕ)
    (f1 f2 : String) : detectVoice env ab f1 = detectVoice env ab f2 := rfl

/-- C1: whenever the pipeline body fails, detect_voice returns exactly the
human/0.3 fallback tuple whose explanation starts with "Processing error", and
a decode that yields fewer than 16000 samples is such a failure. -/
theorem detect_voice_fallback (env : AudioEnv) (ab : List ℕ) (ff : String) :
    (∀ e, pipelineE env ab ff = Except.error e →
      detectVoice env ab ff =
        ("human", 0.3, "Processing error (defaulting to human): " ++ e) ∧
      ∃ rest, (detectVoice env ab ff).2.2 = "Processing error" ++ rest) ∧
    (∀ y, env.load ab = Except.ok y → y.length < procSr →
      pipelineE env ab ff = Except.error
        ("Failed to load audio: " ++ "Audio too short (minimum 1 second required)")) := by
  constructor
  · intro e he
    have hd : detectVoice env ab ff =
        ("human", 0.3, "Processing error (defaulting to human): " ++ e) := by
      unfold detectVoice
      rw [he]
    refine ⟨hd, " (defaulting to human): " ++ e, ?_⟩
    rw [hd]
    show "Processing error (defaulting to human): " ++ e =
      "Processing error" ++ (" (defaulting to human): " ++ e)
    rw [← String.append_assoc,
      show "Processing error" ++ " (defaulting to human): " =
        "Processing error (defaulting to human): " from rfl]
  · intro y hy hlen
    have hl : loadWaveform env ab ff = Except.error
        ("Failed to load audio: " ++ "Audio too short (minimum 1 second required)") := by
      unfold loadWaveform
      rw [hy]
      show (if y.length < procSr then
          Except.error ("Failed to load audio: " ++ "Audio too short (minimum 1 second required)")
        else Except.ok y) = _
      rw [if_pos hlen]
    unfold pipelineE
    rw [hl]

/-- C2 (amended): the spectral score always lies in the unit interval and the
artifact score never exceeds 1 but has no lower clamp, while the temporal
scorer never produces a score at all — its peak-picking call of line 222
raises before a value can be returned. -/
theorem scorer_ranges (env : AudioEnv) (y : List ℝ) (sr : ℕ) :
    0 ≤ analyzeSpectral env y sr ∧ analyzeSpectral env y sr ≤ 1 ∧
    detectArtifacts env y sr ≤ 1 ∧
    ∀ r, analyzeTemporal env y sr ≠ Except.ok r := by
  refine ⟨(analyzeSpectral_mem env y sr).1, (analyzeSpectral_mem env y sr).2,
    detectArtifacts_le_one env y sr, ?_⟩
  intro r h
  simp [analyzeTemporal, peakPickCall] at h

/-- A concrete library environment with minimal fixed outputs, satisfying all
the library contracts, used to instantiate the theorems at evaluable inputs. -/
def envBase : AudioEnv where
  load := fun _ => Except.ok []
  mfcc := fun _ _ n => List.replicate n [0]
  stftAbs := fun _ => []
  spectralCentroid := fun _ _ => []
  spectralRolloff := fun _ _ => []
  zeroCrossingRate := fun _ => []
  chromaStft := fun _ _ => List.replicate 12 []
  rmsOfS := fun _ => []
  onsetStrength := fun _ _ => []
  spectralFlatness := fun _ => []
  hpssHarmAbs := fun _ => []
  pct := fun _ => "pc"
  mfcc_rows := by intro y sr n; simp
  chroma_rows := by intro y sr; simp
  stftAbs_nonneg := by intro y x hx; simp [flatAll] at hx
  centroid_nonneg := by intro y sr x hx; simp at hx
  rms_nonneg := by intro S x hx; simp at hx
  flatness_unit := by intro S x hx; simp at hx
  hpss_nonneg := by intro y x hx; simp [flatAll] at hx

/-- Witness for C1: the base environment decodes every byte string to the
empty waveform, shorter than one second, so detect_voice returns exactly the
human/0.3 fallback tuple. -/
theorem detect_voice_fallback_witness :
    pipelineE envBase [] "wav" = Except.error
      ("Failed to load audio: " ++ "Audio too short (minimum 1 second required)") ∧
    detectVoice envBase [] "wav" =
      ("human", 0.3, "Processing error (defaulting to human): " ++
        ("Failed to load audio: " ++ "Audio too short (minimum 1 second required)")) ∧
    ∃ rest, (detectVoice envBase [] "wav").2.2 = "Processing error" ++ rest := by
  have hp := (detect_voice_fallback envBase [] "wav").2 [] rfl (by simp [procSr])
  have h1 := (detect_voice_fallback envBase [] "wav").1 _ hp
  exact ⟨hp, h1.1, h1.2⟩

/-- C3: the feature extractor never produces a descriptor vector: the eight
0-d scalar statistics in the features list make np.concatenate raise
ValueError on every call, so no input ever yields the claimed 86-entry vector
(whose own breakdown would in any case sum to 84, not 86). -/
theorem extract_features_always_raises (env : AudioEnv) (y : List ℝ) (sr : ℕ) :
    extractFeatures env y sr = Except.error
      "zero-dimensional arrays cannot be concatenated" := rfl

theorem npStd_eq_of_sq {l : List ℝ} {c : ℝ} (hc : 0 ≤ c) (h : npVar l = c ^ 2) :
    npStd l = c := by
  rw [npStd, h, Real.sqrt_sq hc]

/-- The formant-regularity indicator as the words of the claim state it: the
standard deviation taken across the 13 cepstral coefficients of each
coefficient's across-time standard deviation, divided by 5 and clamped at 1
(np.std over axis 1 first, then np.std across coefficients). -/
def formantIndicatorClaim (env : AudioEnv) (y : List ℝ) (sr : ℕ) : ℝ :=
  min 1 (npStd (stdAxis1 (env.mfcc y sr 13)) / 5)

/-- C4 (amended): the computed indicator clamps at 1 one fifth of the
across-time standard deviation of the per-frame across-coefficient standard
deviations — np.std over axis 0 (across the 13 coefficients, per frame)
first, then np.std across time. -/
theorem formant_indicator_amended (env : AudioEnv) (y : List ℝ) (sr : ℕ) :
    formantIndicator env y sr = min 1 (npStd (stdAxis0 (env.mfcc y sr 13)) / 5) := rfl

/-- The base environment with a 13-by-2 cepstral matrix on which the two axis
orders of the formant-regularity statistic disagree. -/
def envC4 : AudioEnv :=
  { envBase with
    mfcc := fun _ _ n =>
      if n = 13 then List.replicate 4 [(13 : ℝ), 11] ++ List.replicate 9 [0, 2]
      else List.replicate n [0]
    mfcc_rows := by
      intro y sr n
      by_cases h : n = 13
      · simp [h]
      · simp [h] }

/-- C4 counterexample: on the 13-by-2 cepstral matrix with four rows [13, 11]
and nine rows [0, 2], the indicator the code computes is 12/65 while the
claim's formula gives 0. -/
theorem formant_indicator_counterexample :
    formantIndicator envC4 [] 16000 ≠ formantIndicatorClaim envC4 [] 16000 := by
  have hM : envC4.mfcc [] 16000 13 =
      List.replicate 4 [(13 : ℝ), 11] ++ List.replicate 9 [0, 2] := by
    simp [envC4]
  have h1 : npStd (List.replicate 4 (13 : ℝ) ++ List.replicate 9 0) = 6 := by
    have hm : npMean (List.replicate 4 (13 : ℝ) ++ List.replicate 9 0) = 4 := by
      norm_num [npMean, List.sum_append, List.sum_replicate, smul_eq_mul]
    refine npStd_eq_of_sq (by norm_num) ?_
    rw [npVar, hm]
    norm_num [npMean, List.map_append, List.map_replicate, List.sum_append,
      List.sum_replicate, smul_eq_mul]
  have h2 : npStd (List.replicate 4 (11 : ℝ) ++ List.replicate 9 2) = 54 / 13 := by
    have hm : npMean (List.replicate 4 (11 : ℝ) ++ List.replicate 9 2) = 62 / 13 := by
      norm_num [npMean, List.sum_append, List.sum_replicate, smul_eq_mul]
    refine npStd_eq_of_sq (by norm_num) ?_
    rw [npVar, hm]
    norm_num [npMean, List.map_append, List.map_replicate, List.sum_append,
      List.sum_replicate, smul_eq_mul]
  have h3 : npStd [(6 : ℝ), 54 / 13] = 12 / 13 := by
    have hm : npMean [(6 : ℝ), 54 / 13] = 66 / 13 := by
      norm_num [npMean]
    refine npStd_eq_of_sq (by norm_num) ?_
    rw [npVar, hm]
    norm_num [npMean]
  have hcol0 : colAt (List.replicate 4 [(13 : ℝ), 11] ++ List.replicate 9 [0, 2]) 0 =
      List.replicate 4 (13 : ℝ) ++ List.replicate 9 0 := by
    simp [colAt, List.map_append, List.map_replicate]
  have hcol1 : colAt (List.replicate 4 [(13 : ℝ), 11] ++ List.replicate 9 [0, 2]) 1 =
      List.replicate 4 (11 : ℝ) ++ List.replicate 9 2 := by
    simp [colAt, List.map_append, List.map_replicate]
  have hrow : rowLen (List.replicate 4 [(13 : ℝ), 11] ++ List.replicate 9 [0, 2]) = 2 := by
    norm_num [rowLen, List.replicate_succ]
  have hcode : formantIndicator envC4 [] 16000 = 12 / 65 := by
    rw [formantIndicator, formantRegularity, hM, stdAxis0, hrow,
      show List.range 2 = [0, 1] from rfl]
    simp only [List.map_cons, List.map_nil, hcol0, hcol1, h1, h2, h3]
    rw [min_eq_right (by norm_num)]
    norm_num
  have h4 : npStd [(13 : ℝ), 11] = 1 := by
    have hm : npMean [(13 : ℝ), 11] = 12 := by norm_num [npMean]
    refine npStd_eq_of_sq (by norm_num) ?_
    rw [npVar, hm]
    norm_num [npMean]
  have h5 : npStd [(0 : ℝ), 2] = 1 := by
    have hm : npMean [(0 : ℝ), 2] = 1 := by norm_num [npMean]
    refine npStd_eq_of_sq (by norm_num) ?_
    rw [npVar, hm]
    norm_num [npMean]
  have h6 : npStd (List.replicate 4 (1 : ℝ) ++ List.replicate 9 1) = 0 := by
    have hm : npMean (List.replicate 4 (1 : ℝ) ++ List.replicate 9 1) = 1 := by
      norm_num [npMean, List.sum_append, List.sum_replicate, smul_eq_mul]
    refine npStd_eq_of_sq le_rfl ?_
    rw [npVar, hm]
    norm_num [npMean, List.map_append, List.map_replicate, List.sum_append,
      List.sum_replicate, smul_eq_mul]
  have hclaim : formantIndicatorClaim envC4 [] 16000 = 0 := by
    rw [formantIndicatorClaim, hM, stdAxis1]
    simp only [List.map_append, List.map_replicate, h4, h5, h6]
    norm_num
  rw [hcode, hclaim]
  norm_num

theorem zipmul_replicate_zero (l : List ℝ) (m : ℕ) :
    (List.zipWith (fun a b => a * b) l (List.replicate m 0)).sum = 0 := by
  induction l generalizing m with
  | nil => simp
  | cons x xs ih =>
    cases m with
    | zero => simp
    | succ k => simp [List.replicate_succ, ih]

theorem foldl_max_of_le (l : List ℝ) (c : ℝ) (h : ∀ x ∈ l, x ≤ c) :
    l.foldl max c = c := by
  induction l generalizing c with
  | nil => rfl
  | cons x xs ih =>
    rw [List.foldl_cons, max_eq_left (h x (List.mem_cons_self x xs))]
    exact ih c (fun z hz => h z (List.mem_cons_of_mem x hz))

/-- A one-second waveform at sampling rate 40: a unit impulse followed by
silence, whose autocorrelation vanishes at every nonzero lag. -/
def yImpulse : List ℝ := 1 :: List.replicate 39 0

/-- The base environment with a constant-free spectrogram consisting of one
frequency bin observed at the two magnitudes 10000 and 14000. -/
def envC2 : AudioEnv :=
  { envBase with
    stftAbs := fun _ => [[(10000 : ℝ), 14000]]
    stftAbs_nonneg := by
      intro y x hx
      simp [flatAll] at hx
      rcases hx with rfl | rfl <;> norm_num }

theorem corrAt_yImpulse_zero : corrAt yImpulse 0 = 1 := by
  rw [corrAt, List.drop_zero, yImpulse, List.zipWith_cons_cons, List.sum_cons,
    zipmul_replicate_zero]
  norm_num

theorem corrAt_yImpulse_succ (k : ℕ) : corrAt yImpulse (k + 1) = 0 := by
  rw [corrAt, yImpulse, List.drop_succ_cons, List.drop_replicate]
  exact zipmul_replicate_zero _ _

theorem autocorrHalf_yImpulse : autocorrHalf yImpulse =
    1 :: (List.range 39).map (corrAt yImpulse ∘ Nat.succ) := by
  rw [autocorrHalf, show yImpulse.length = 40 by simp [yImpulse],
    List.range_succ_eq_map, List.map_cons, List.map_map, corrAt_yImpulse_zero]

theorem npMax_autocorr_yImpulse : npMax (autocorrHalf yImpulse) = 1 := by
  rw [autocorrHalf_yImpulse]
  show ((List.range 39).map (corrAt yImpulse ∘ Nat.succ)).foldl max 1 = 1
  refine foldl_max_of_le _ _ ?_
  intro x hx
  rcases List.mem_map.1 hx with ⟨k, _, rfl⟩
  show corrAt yImpulse (k + 1) ≤ 1
  rw [corrAt_yImpulse_succ]
  norm_num

theorem slice_autocorr_yImpulse :
    ((autocorrHalf yImpulse).drop 1).take (2 - 1) = [0] := by
  rw [autocorrHalf_yImpulse]
  show ((List.range 39).map (corrAt yImpulse ∘ Nat.succ)).take 1 = [0]
  rw [← List.map_take, List.take_range, show min 1 39 = 1 from rfl,
    show List.range 1 = [0] from rfl, List.map_cons, List.map_nil]
  show [corrAt yImpulse (0 + 1)] = [0]
  rw [corrAt_yImpulse_succ]

theorem periodicity_yImpulse : periodicityIndicator yImpulse 40 = 0 := by
  rw [periodicityIndicator]
  have hm : ⌊(0.05 : ℝ) * ((40 : ℕ) : ℝ)⌋₊ = 2 := by
    rw [show (0.05 : ℝ) * ((40 : ℕ) : ℝ) = 2 by norm_num]
    norm_num
  rw [hm, slice_autocorr_yImpulse, npMax_autocorr_yImpulse]
  show min 1 (npMax [0] / 1) = 0
  rw [show npMax [(0 : ℝ)] = 0 from rfl]
  norm_num

/-- C2 counterexample: on the one-second impulse waveform with the constant
13-row cepstral matrix and the [10000, 14000] spectrogram, the noise-floor
indicator is negative and unclamped below, so the artifact score itself drops
below 0, outside the claimed [0, 1] range. -/
theorem detect_artifacts_counterexample :
    40 ≤ yImpulse.length ∧ detectArtifacts envC2 yImpulse 40 < 0 := by
  constructor
  · simp [yImpulse]
  have hstd0 : npStd (List.replicate 13 (0 : ℝ)) = 0 := by
    have hm : npMean (List.replicate 13 (0 : ℝ)) = 0 := by
      norm_num [npMean, List.sum_replicate]
    refine npStd_eq_of_sq le_rfl ?_
    rw [npVar, hm]
    norm_num [npMean, List.map_replicate, List.sum_replicate]
  have hstds : npStd [(0 : ℝ)] = 0 := by
    have hm : npMean [(0 : ℝ)] = 0 := by norm_num [npMean]
    refine npStd_eq_of_sq le_rfl ?_
    rw [npVar, hm]
    norm_num [npMean]
  have hi1 : formantIndicator envC2 yImpulse 40 = 0 := by
    have hM : envC2.mfcc yImpulse 40 13 = List.replicate 13 [0] := by
      simp [envC2, envBase]
    rw [formantIndicator, formantRegularity, hM, stdAxis0,
      show rowLen (List.replicate 13 [(0 : ℝ)]) = 1 by
        norm_num [rowLen, List.replicate_succ],
      show List.range 1 = [0] from rfl, List.map_cons, List.map_nil,
      show colAt (List.replicate 13 [(0 : ℝ)]) 0 = List.replicate 13 0 by
        simp [colAt, List.map_replicate],
      hstd0, hstds]
    norm_num
  have hstft : envC2.stftAbs yImpulse = [[(10000 : ℝ), 14000]] := by
    simp [envC2]
  have hstd2000 : npStd [(10000 : ℝ), 14000] = 2000 := by
    have hm : npMean [(10000 : ℝ), 14000] = 12000 := by norm_num [npMean]
    refine npStd_eq_of_sq (by norm_num) ?_
    rw [npVar, hm]
    norm_num [npMean]
  have hi2 : smoothnessIndicator envC2 yImpulse = 0 := by
    rw [smoothnessIndicator, hstft, stdAxis1, List.map_cons, List.map_nil, hstd2000]
    rw [show npMean [(2000 : ℝ)] = 2000 by norm_num [npMean]]
    norm_num
  have hsort : sortAsc [(10000 : ℝ), 14000] = [10000, 14000] := by
    show sortedInsert 10000 (sortedInsert 14000 []) = [10000, 14000]
    simp only [sortedInsert]
    rw [if_pos (by norm_num : (10000 : ℝ) ≤ 14000)]
  have hp10 : npPercentile 10 [(10000 : ℝ), 14000] = 10400 := by
    rw [npPercentile, hsort]
    rw [show (([(10000 : ℝ), 14000].length : ℝ) - 1) * 10 / 100 = 1 / 10 by norm_num]
    rw [Nat.floor_eq_zero.2 (by norm_num : (1 / 10 : ℝ) < 1)]
    simp [List.getD]
    norm_num
  have hp90 : npPercentile 90 [(10000 : ℝ), 14000] = 13600 := by
    rw [npPercentile, hsort]
    rw [show (([(10000 : ℝ), 14000].length : ℝ) - 1) * 90 / 100 = 9 / 10 by norm_num]
    rw [Nat.floor_eq_zero.2 (by norm_num : (9 / 10 : ℝ) < 1)]
    simp [List.getD]
    norm_num
  have hi3 : noiseFloorIndicator envC2 yImpulse =
      (13600 / (10400 + 1e-8) - 5) / 20 := by
    rw [noiseFloorIndicator, hstft, show flatAll [[(10000 : ℝ), 14000]] = [10000, 14000]
      by simp [flatAll], hp90, hp10]
    rw [min_eq_right (by norm_num)]
  rw [detectArtifacts, hi1, hi2, hi3, periodicity_yImpulse, npMean]
  norm_num

end Voice
